import Mathlib

set_option maxRecDepth 16384

/-
  Verification development for acme4j-smime/tool/smime-generator.py.

  The script builds a fixed inner RFC822 body, signs it with a detached
  PKCS#7 signature through the M2Crypto SMIME library, prepends unsigned
  outer envelope headers and writes the result to a fixture file.  The
  pure string construction is embedded directly from the source; the
  M2Crypto calls (load_key, sign, write) are third-party library code and
  are represented by an abstract backend, with the multipart/signed
  serialization modelled from the specification.
-/

/-- Carriage return / line feed pair used to terminate every header line. -/
def crlf : String := "\r\n"

/-- The fixed Message-ID literal used both in the inner signed body and in
the outer envelope headers. -/
def messageId : String := "<A2299BB.FF7788@example.org>"

/-- Inner body construction, smime-generator.py lines 35-44: the string
`body` accumulated by the successive `body +=` statements, with each
`format` call expanded to concatenation around its argument. -/
def innerBody (text sender recipient subject : String) : String :=
  "Content-Type: message/RFC822; forwarded=no\r\n\r\n"
  ++ ("From: " ++ sender ++ "\r\n")
  ++ ("To: " ++ recipient ++ "\r\n")
  ++ ("Subject: " ++ subject ++ "\r\n")
  ++ "Message-ID: <A2299BB.FF7788@example.org>\r\n"
  ++ "MIME-Version: 1.0\r\n"
  ++ "Content-Type: text/plain; charset=utf-8\r\n"
  ++ "\r\n"
  ++ text
  ++ "\r\n"

/-- Outer envelope headers, smime-generator.py lines 51-55: the five
`out.write` calls before `s.write`, with the conditional expressions
`x if x is not None else y` rendered as `Option.getD`. -/
def outerHeaders (sender recipient subject : String)
    (envelopeFrom envelopeTo envelopeSubject : Option String) : String :=
  ("From: " ++ envelopeFrom.getD sender ++ "\r\n")
  ++ ("To: " ++ envelopeTo.getD recipient ++ "\r\n")
  ++ ("Subject: " ++ envelopeSubject.getD subject ++ "\r\n")
  ++ "Auto-Submitted: auto-generated; type=acme\r\n"
  ++ "Message-ID: <A2299BB.FF7788@example.org>\r\n"

/-- Error taxonomy of the signer: key material that cannot be loaded, and
failure of the cryptographic signing call. -/
inductive SMIMEError where
  | keyLoadError : String → SMIMEError
  | signingError : String → SMIMEError
  deriving DecidableEq, Repr

/-- Abstract interface to the M2Crypto SMIME library (third-party code,
not part of this repository): `loadKey` models `SMIME.load_key` on the two
key-material paths and may fail, `sign` models `SMIME.sign` with
`PKCS7_DETACHED` on the body bytes and may fail, and `boundary` is the
MIME boundary the serializer chooses for `SMIME.write`. -/
structure SMIMEBackend (Key : Type) where
  loadKey : String → String → Except String Key
  sign : Key → String → Except String String
  boundary : String

/-- Modelled from the spec: the delimiter line that opens a part of the
multipart/signed structure produced by M2Crypto `SMIME.write`, which is
library code not part of this repository. -/
def mimeDelim (boundary : String) : String := "\r\n--" ++ boundary ++ "\r\n"

/-- Modelled from the spec: the closing delimiter line of the
multipart/signed structure. -/
def mimeCloseDelim (boundary : String) : String := "\r\n--" ++ boundary ++ "--\r\n"

/-- Modelled from the spec: the headers of the detached-signature part of
the multipart/signed structure. -/
def sigPartHeader : String :=
  "Content-Type: application/x-pkcs7-signature; name=\"smime.p7s\"\r\n"
  ++ "Content-Transfer-Encoding: base64\r\n"
  ++ "Content-Disposition: attachment; filename=\"smime.p7s\"\r\n"
  ++ "\r\n"

/-- Modelled from the spec: the top-level headers and preamble of the
multipart/signed structure, ending just before the first part delimiter. -/
def smimeTopHeaders (boundary : String) : String :=
  "MIME-Version: 1.0\r\n"
  ++ ("Content-Type: multipart/signed; protocol=\"application/x-pkcs7-signature\"; micalg=\"sha-256\"; boundary=\"" ++ boundary ++ "\"\r\n")
  ++ "\r\nThis is an S/MIME signed message"

/-- Modelled from the spec: the standard multipart/signed MIME structure
containing the detached signature and the original inner body as its
second part (spec section 4.1, step 5); this stands in for M2Crypto
`SMIME.write`, which is library code not part of this repository. -/
def multipartSigned (boundary p7 content : String) : String :=
  smimeTopHeaders boundary
  ++ mimeDelim boundary
  ++ (sigPartHeader ++ p7)
  ++ mimeDelim boundary
  ++ content
  ++ mimeCloseDelim boundary

/-- Result of one run of `signmail`: the produced byte stream together
with the exact byte sequence that was handed to the PKCS#7 sign call. -/
structure SignmailResult where
  output : String
  signedInput : String
  deriving DecidableEq, Repr

/-- The `signmail` function of smime-generator.py, lines 33-58, over an
abstract SMIME backend: build the inner body, load the key material, sign
the inner body detached, then write the outer envelope headers followed by
the multipart/signed structure.  `signedInput` records the argument of the
sign call. -/
def signmailRun {Key : Type} (be : SMIMEBackend Key)
    (text sender recipient subject privkey pubkey : String)
    (envelopeFrom envelopeTo envelopeSubject : Option String) :
    Except SMIMEError SignmailResult :=
  let body := innerBody text sender recipient subject
  match be.loadKey privkey pubkey with
  | Except.error e => Except.error (SMIMEError.keyLoadError e)
  | Except.ok key =>
    match be.sign key body with
    | Except.error e => Except.error (SMIMEError.signingError e)
    | Except.ok p7 =>
      Except.ok (SignmailResult.mk
        (outerHeaders sender recipient subject envelopeFrom envelopeTo envelopeSubject
          ++ multipartSigned be.boundary p7 body)
        body)

/-- The byte stream returned by `signmail` (the `out.read()` of line 58). -/
def signmail {Key : Type} (be : SMIMEBackend Key)
    (text sender recipient subject privkey pubkey : String)
    (envelopeFrom envelopeTo envelopeSubject : Option String) :
    Except SMIMEError String :=
  Except.map SignmailResult.output
    (signmailRun be text sender recipient subject privkey pubkey
      envelopeFrom envelopeTo envelopeSubject)

/-- One module-level call site of the generator: output path plus the
arguments passed to `signmail`. -/
structure Scenario where
  path : String
  text : String
  sender : String
  recipient : String
  subject : String
  privkey : String
  pubkey : String
  envelopeFrom : Option String
  envelopeTo : Option String
  envelopeSubject : Option String
  deriving DecidableEq, Repr

/-- Challenge text shared by all call sites. -/
def acmeText : String := "This is an automatically generated ACME challenge."

/-- Subject line shared by all call sites. -/
def acmeSubject : String := "ACME: LgYemJLy3F1LDkiJrdIGbEzyFJyOyf6vBdyZ1TG3sME="

/-- Path of the valid signer private key. -/
def validPrivkey : String := "src/test/resources/valid-signer-privkey.pem"

/-- Path of the valid signer certificate. -/
def validPubkey : String := "src/test/resources/valid-signer.pem"

/-- Call site writing valid-mail.eml (lines 60-66). -/
def scValidMail : Scenario :=
  ⟨"src/test/resources/email/valid-mail.eml", acmeText,
   "valid-ca@example.com", "recipient@example.org", acmeSubject,
   validPrivkey, validPubkey, none, none, none⟩

/-- Call site writing invalid-cert-mismatch.eml (lines 68-75). -/
def scCertMismatch : Scenario :=
  ⟨"src/test/resources/email/invalid-cert-mismatch.eml", acmeText,
   "different-ca@example.com", "recipient@example.org", acmeSubject,
   validPrivkey, validPubkey, some ("different-ca@example.org"), none, none⟩

/-- Call site writing invalid-nosan.eml (lines 77-83). -/
def scNosan : Scenario :=
  ⟨"src/test/resources/email/invalid-nosan.eml", acmeText,
   "valid-ca@example.com", "recipient@example.org", acmeSubject,
   "src/test/resources/valid-signer-nosan-privkey.pem",
   "src/test/resources/valid-signer-nosan.pem", none, none, none⟩

/-- Call site writing invalid-signed-mail.eml (lines 85-91). -/
def scInvalidSigner : Scenario :=
  ⟨"src/test/resources/email/invalid-signed-mail.eml", acmeText,
   "valid-ca@example.com", "recipient@example.org", acmeSubject,
   "src/test/resources/invalid-signer-privkey.pem",
   "src/test/resources/invalid-signer.pem", none, none, none⟩

/-- Call site writing invalid-protected-mail-from.eml (lines 93-100). -/
def scProtFrom : Scenario :=
  ⟨"src/test/resources/email/invalid-protected-mail-from.eml", acmeText,
   "valid-ca@example.com", "recipient@example.org", acmeSubject,
   validPrivkey, validPubkey, some ("tampered-ca@example.org"), none, none⟩

/-- Call site writing invalid-protected-mail-to.eml (lines 102-109). -/
def scProtTo : Scenario :=
  ⟨"src/test/resources/email/invalid-protected-mail-to.eml", acmeText,
   "valid-ca@example.com", "recipient@example.org", acmeSubject,
   validPrivkey, validPubkey, none, some ("tampered-recipient@example.com"), none⟩

/-- Call site writing invalid-protected-mail-subject.eml (lines 111-118). -/
def scProtSubject : Scenario :=
  ⟨"src/test/resources/email/invalid-protected-mail-subject.eml", acmeText,
   "valid-ca@example.com", "recipient@example.org", acmeSubject,
   validPrivkey, validPubkey, none, none, some ("ACME: aDiFfErEnTtOkEn")⟩

/-- The module-level call sites in program order (lines 60-118). -/
def scenarios : List Scenario :=
  [scValidMail, scCertMismatch, scNosan, scInvalidSigner,
   scProtFrom, scProtTo, scProtSubject]

/-- Run `signmailRun` on the arguments of one scenario. -/
def signmailRunSc {Key : Type} (be : SMIMEBackend Key) (sc : Scenario) :
    Except SMIMEError SignmailResult :=
  signmailRun be sc.text sc.sender sc.recipient sc.subject sc.privkey sc.pubkey
    sc.envelopeFrom sc.envelopeTo sc.envelopeSubject

/-- Run `signmail` on the arguments of one scenario. -/
def signmailSc {Key : Type} (be : SMIMEBackend Key) (sc : Scenario) :
    Except SMIMEError String :=
  signmail be sc.text sc.sender sc.recipient sc.subject sc.privkey sc.pubkey
    sc.envelopeFrom sc.envelopeTo sc.envelopeSubject

/-- A complete run of the generator script: every call site paired with
the byte stream that is written to its output path. -/
def runAll {Key : Type} (be : SMIMEBackend Key) :
    List (String × Except SMIMEError String) :=
  scenarios.map (fun sc => (sc.path, signmailSc be sc))

/-- The outer From header value of a scenario. -/
def outerFromOf (sc : Scenario) : String := sc.envelopeFrom.getD sc.sender

/-- The outer To header value of a scenario. -/
def outerToOf (sc : Scenario) : String := sc.envelopeTo.getD sc.recipient

/-- The outer Subject header value of a scenario. -/
def outerSubjectOf (sc : Scenario) : String := sc.envelopeSubject.getD sc.subject

/-- A backend with trivially succeeding key loading and signing, used to
evaluate the embedding on concrete inputs. -/
def testBE : SMIMEBackend Unit :=
  ⟨fun _ _ => Except.ok (), fun _ _ => Except.ok ("U0lHTkFUVVJFQkFTRTY0"),
   "testboundary42"⟩

/-- A second backend, with a different key handle type but the same
observable key-load result, signature bytes and boundary as `testBE`. -/
def testBE2 : SMIMEBackend Bool :=
  ⟨fun _ _ => Except.ok true, fun _ _ => Except.ok ("U0lHTkFUVVJFQkFTRTY0"),
   "testboundary42"⟩

/-- A backend whose key loading fails. -/
def badKeyBE : SMIMEBackend Unit :=
  ⟨fun _ _ => Except.error ("badkey"), fun _ _ => Except.ok ("sig"), "b1"⟩

/-- A backend whose signing call fails. -/
def badSignBE : SMIMEBackend Unit :=
  ⟨fun _ _ => Except.ok (), fun _ _ => Except.error ("badsign"), "b2"⟩

/-- Boolean test that `d` is a leading segment of `s`. -/
def leadsWith : List Char → List Char → Bool
  | [], _ => true
  | _ :: _, [] => false
  | c :: cs, x :: xs => c == x && leadsWith cs xs

/-- Split a character list at the first occurrence of the delimiter `d`,
returning the part before it and the part after it. -/
def splitOnce (d : List Char) : List Char → Option (List Char × List Char)
  | [] => if leadsWith d [] then some ([], []) else none
  | c :: rest =>
    if leadsWith d (c :: rest) then some ([], List.drop d.length (c :: rest))
    else Option.map (fun p => (c :: p.1, p.2)) (splitOnce d rest)

/-- The delimiter `d` matches at no position strictly inside `a` when
scanning `a ++ d ++ b`; the first match is then exactly at the border. -/
def NoEarly (d a b : List Char) : Prop :=
  ∀ i : Nat, i < a.length → leadsWith d (a.drop i ++ (d ++ b)) = false

instance noEarlyDecidable (d a b : List Char) : Decidable (NoEarly d a b) :=
  inferInstanceAs (Decidable
    (∀ i : Nat, i < a.length → leadsWith d (a.drop i ++ (d ++ b)) = false))

/-- Parse a serialized multipart/signed message with the given boundary
and extract its second body part: skip the top headers at the first
delimiter, skip the first part at the second delimiter, and take what
stands before the closing delimiter. -/
def extractSecondPart (boundary : String) (s : String) : Option String :=
  match splitOnce (mimeDelim boundary).data s.data with
  | none => none
  | some (_, r1) =>
    match splitOnce (mimeDelim boundary).data r1 with
    | none => none
    | some (_, r2) =>
      match splitOnce (mimeCloseDelim boundary).data r2 with
      | none => none
      | some (content, _) => some (String.mk content)

/-- Concrete run of the embedding used to evaluate theorems with
hypotheses: result of signing a small message with the test backend. -/
def wRes : SignmailResult :=
  (signmailRun testBE ("hello") ("a@example.com") ("b@example.org") ("S")
    ("pk") ("cert") none none none).toOption.getD (SignmailResult.mk ("") (""))

/-- Concrete run as `wRes` but with all three envelope overrides set. -/
def wResB : SignmailResult :=
  (signmailRun testBE ("hello") ("a@example.com") ("b@example.org") ("S")
    ("pk") ("cert") (some ("x@e.org")) (some ("y@e.org")) (some ("T"))).toOption.getD
    (SignmailResult.mk ("") (""))

/-- Concrete output byte stream of the run of `wRes`. -/
def wOut : String :=
  (signmail testBE ("hello") ("a@example.com") ("b@example.org") ("S")
    ("pk") ("cert") none none none).toOption.getD ("")

/-- Concrete run of the tampered-From scenario with the test backend. -/
def wResPF : SignmailResult :=
  (signmailRunSc testBE scProtFrom).toOption.getD (SignmailResult.mk ("") (""))

/-- Concrete output of the valid-mail scenario with the test backend. -/
def wOutValid : String :=
  (signmailSc testBE scValidMail).toOption.getD ("")

/-- The key-load and sign results fully determine a successful run. -/
lemma signmailRun_ok_of {Key : Type} (be : SMIMEBackend Key)
    (text sender recipient subject privkey pubkey : String)
    (eF eT eS : Option String) (key : Key) (p7 : String)
    (hk : be.loadKey privkey pubkey = Except.ok key)
    (hs : be.sign key (innerBody text sender recipient subject) = Except.ok p7) :
    signmailRun be text sender recipient subject privkey pubkey eF eT eS =
      Except.ok (SignmailResult.mk
        (outerHeaders sender recipient subject eF eT eS
          ++ multipartSigned be.boundary p7 (innerBody text sender recipient subject))
        (innerBody text sender recipient subject)) := by
  simp [signmailRun, hk, hs]

/-- A successful run exposes key, signature and the shape of the result. -/
lemma signmailRun_ok_shape {Key : Type} (be : SMIMEBackend Key)
    (text sender recipient subject privkey pubkey : String)
    (eF eT eS : Option String) (r : SignmailResult)
    (h : signmailRun be text sender recipient subject privkey pubkey eF eT eS =
      Except.ok r) :
    ∃ key p7, be.loadKey privkey pubkey = Except.ok key ∧
      be.sign key (innerBody text sender recipient subject) = Except.ok p7 ∧
      r = SignmailResult.mk
        (outerHeaders sender recipient subject eF eT eS
          ++ multipartSigned be.boundary p7 (innerBody text sender recipient subject))
        (innerBody text sender recipient subject) := by
  unfold signmailRun at h
  cases hk : be.loadKey privkey pubkey with
  | error e => rw [hk] at h; simp at h
  | ok key =>
    rw [hk] at h
    cases hs : be.sign key (innerBody text sender recipient subject) with
    | error e => simp [hs] at h
    | ok p7 =>
      simp [hs] at h
      refine ⟨key, p7, ?_, ?_, ?_⟩
      · rfl
      · exact hs
      · exact h.symm

/-- A successful `signmail` output has the envelope-plus-multipart shape. -/
lemma signmail_ok_shape {Key : Type} (be : SMIMEBackend Key)
    (text sender recipient subject privkey pubkey : String)
    (eF eT eS : Option String) (out : String)
    (h : signmail be text sender recipient subject privkey pubkey eF eT eS =
      Except.ok out) :
    ∃ p7, out =
      outerHeaders sender recipient subject eF eT eS
        ++ multipartSigned be.boundary p7 (innerBody text sender recipient subject) := by
  unfold signmail at h
  cases hrun : signmailRun be text sender recipient subject privkey pubkey eF eT eS with
  | error e => rw [hrun] at h; simp [Except.map] at h
  | ok r =>
    rw [hrun] at h
    simp [Except.map] at h
    obtain ⟨key, p7, hk, hs, hr⟩ :=
      signmailRun_ok_shape be text sender recipient subject privkey pubkey eF eT eS r hrun
    subst hr
    exact ⟨p7, h.symm⟩

/-- The sign call of a scenario run receives exactly the inner body built
from the scenario's own inner values. -/
lemma signmailRunSc_signedInput {Key : Type} (be : SMIMEBackend Key)
    (sc : Scenario) (r : SignmailResult)
    (h : signmailRunSc be sc = Except.ok r) :
    r.signedInput = innerBody sc.text sc.sender sc.recipient sc.subject := by
  unfold signmailRunSc at h
  obtain ⟨key, p7, hk, hs, hr⟩ :=
    signmailRun_ok_shape be sc.text sc.sender sc.recipient sc.subject sc.privkey
      sc.pubkey sc.envelopeFrom sc.envelopeTo sc.envelopeSubject r h
  subst hr
  rfl

/-- A list is always a leading segment of itself followed by anything. -/
lemma leadsWith_append_self (d b : List Char) : leadsWith d (d ++ b) = true := by
  induction d with
  | nil => rfl
  | cons c cs ih => simp [leadsWith, ih]

/-- Splitting a list that starts with the delimiter splits at the front. -/
lemma splitOnce_self (d b : List Char) : splitOnce d (d ++ b) = some ([], b) := by
  cases hdb : d ++ b with
  | nil =>
    obtain ⟨hd, hb⟩ := List.append_eq_nil.mp hdb
    subst hd; subst hb; rfl
  | cons c rest =>
    have hlw : leadsWith d (d ++ b) = true := leadsWith_append_self d b
    rw [hdb] at hlw
    rw [splitOnce]
    simp [hlw]
    rw [← hdb]
    exact List.drop_left d b

/-- When the delimiter matches nowhere inside `a`, the first split of
`a ++ d ++ b` is exactly at the border between `a` and `d`. -/
lemma splitOnce_append (d a b : List Char) (h : NoEarly d a b) :
    splitOnce d (a ++ (d ++ b)) = some (a, b) := by
  induction a with
  | nil => simpa using splitOnce_self d b
  | cons c a' ih =>
    have h0 : leadsWith d ((c :: a') ++ (d ++ b)) = false := by
      have h0' := h 0 (by simp)
      simpa using h0'
    have h' : NoEarly d a' b := by
      intro i hi
      have hh := h (i + 1) (by simpa using Nat.succ_lt_succ hi)
      simpa using hh
    have ih' := ih h'
    simp only [List.cons_append] at h0 ⊢
    rw [splitOnce]
    simp [h0, ih']

/-- Border split against the closing delimiter at the very end. -/
lemma splitOnce_append_end (d a : List Char) (h : NoEarly d a []) :
    splitOnce d (a ++ d) = some (a, []) := by
  have hh := splitOnce_append d a [] h
  simpa using hh

/-- C2: for every text, sender, recipient and subject, the inner body
built by `signmail` is exactly the stated byte sequence — the forwarded
Content-Type line, a blank line, the From/To/Subject lines, the fixed
Message-ID, MIME-Version, the text/plain Content-Type, a blank line, the
payload and a trailing CRLF — with every header line terminated by CRLF
(bytes 13 and 10), not LF. -/
theorem inner_body_exact_bytes (text sender recipient subject : String) :
    (innerBody text sender recipient subject =
      "Content-Type: message/RFC822; forwarded=no" ++ crlf ++ crlf
      ++ "From: " ++ sender ++ crlf
      ++ "To: " ++ recipient ++ crlf
      ++ "Subject: " ++ subject ++ crlf
      ++ "Message-ID: <A2299BB.FF7788@example.org>" ++ crlf
      ++ "MIME-Version: 1.0" ++ crlf
      ++ "Content-Type: text/plain; charset=utf-8" ++ crlf
      ++ crlf ++ text ++ crlf)
    ∧ crlf.data = [Char.ofNat 13, Char.ofNat 10] := by
  constructor
  · apply String.ext
    simp [innerBody, crlf, String.data_append, List.append_assoc]
  · decide

/-- C1: the byte sequence handed to the PKCS#7 sign call is exactly the
inner body, it does not depend on the envelope override values, and the
output is the unsigned outer envelope headers followed by the multipart
structure embedding the signature computed from that inner body. -/
theorem signature_over_inner_only {Key : Type} (be : SMIMEBackend Key)
    (text sender recipient subject privkey pubkey : String)
    (eF eT eS eF' eT' eS' : Option String) (r r' : SignmailResult)
    (h : signmailRun be text sender recipient subject privkey pubkey eF eT eS =
      Except.ok r)
    (h' : signmailRun be text sender recipient subject privkey pubkey eF' eT' eS' =
      Except.ok r') :
    r.signedInput = innerBody text sender recipient subject ∧
    r'.signedInput = r.signedInput ∧
    ∃ p7, r.output =
      outerHeaders sender recipient subject eF eT eS
        ++ multipartSigned be.boundary p7 r.signedInput := by
  obtain ⟨key, p7, hk, hs, hr⟩ :=
    signmailRun_ok_shape be text sender recipient subject privkey pubkey eF eT eS r h
  obtain ⟨key', p7', hk', hs', hr'⟩ :=
    signmailRun_ok_shape be text sender recipient subject privkey pubkey eF' eT' eS' r' h'
  subst hr; subst hr'
  exact ⟨rfl, rfl, p7, rfl⟩

/-- Witness for the C1 theorem on a concrete run of the test backend. -/
theorem signature_over_inner_only_witness :
    wRes.signedInput = innerBody ("hello") ("a@example.com") ("b@example.org") ("S") ∧
    wResB.signedInput = wRes.signedInput ∧
    ∃ p7, wRes.output =
      outerHeaders ("a@example.com") ("b@example.org") ("S") none none none
        ++ multipartSigned testBE.boundary p7 wRes.signedInput :=
  signature_over_inner_only testBE ("hello") ("a@example.com") ("b@example.org") ("S")
    ("pk") ("cert") none none none (some ("x@e.org")) (some ("y@e.org")) (some ("T"))
    wRes wResB rfl rfl

/-- C3: a successful output starts with the outer From, To and Subject
headers (override value if given, else the inner value), the fixed
Auto-Submitted header, and a Message-ID equal to the fixed Message-ID
that also stands inside the inner body, followed by the multipart/signed
structure. -/
theorem output_outer_headers_order {Key : Type} (be : SMIMEBackend Key)
    (text sender recipient subject privkey pubkey : String)
    (eF eT eS : Option String) (out : String)
    (h : signmail be text sender recipient subject privkey pubkey eF eT eS =
      Except.ok out) :
    ∃ p7, out =
      "From: " ++ eF.getD sender ++ crlf
      ++ ("To: " ++ eT.getD recipient ++ crlf)
      ++ ("Subject: " ++ eS.getD subject ++ crlf)
      ++ ("Auto-Submitted: auto-generated; type=acme" ++ crlf)
      ++ ("Message-ID: " ++ messageId ++ crlf)
      ++ multipartSigned be.boundary p7 (innerBody text sender recipient subject) ∧
      (∃ pre post, innerBody text sender recipient subject =
        pre ++ ("Message-ID: " ++ messageId ++ crlf) ++ post) := by
  obtain ⟨p7, hform⟩ :=
    signmail_ok_shape be text sender recipient subject privkey pubkey eF eT eS out h
  have hOuter : outerHeaders sender recipient subject eF eT eS =
      "From: " ++ eF.getD sender ++ crlf
      ++ ("To: " ++ eT.getD recipient ++ crlf)
      ++ ("Subject: " ++ eS.getD subject ++ crlf)
      ++ ("Auto-Submitted: auto-generated; type=acme" ++ crlf)
      ++ ("Message-ID: " ++ messageId ++ crlf) := by
    apply String.ext
    simp [outerHeaders, crlf, messageId, String.data_append, List.append_assoc]
  refine ⟨p7, ?_, ?_⟩
  · rw [hform, hOuter]
  · refine ⟨"Content-Type: message/RFC822; forwarded=no\r\n\r\n"
        ++ ("From: " ++ sender ++ "\r\n")
        ++ ("To: " ++ recipient ++ "\r\n")
        ++ ("Subject: " ++ subject ++ "\r\n"),
      "MIME-Version: 1.0\r\n"
        ++ "Content-Type: text/plain; charset=utf-8\r\n"
        ++ "\r\n" ++ text ++ "\r\n", ?_⟩
    apply String.ext
    simp [innerBody, crlf, messageId, String.data_append, List.append_assoc]

/-- Witness for the C3 theorem on a concrete run of the test backend. -/
theorem output_outer_headers_order_witness :
    ∃ p7, wOut =
      "From: " ++ Option.getD none ("a@example.com") ++ crlf
      ++ ("To: " ++ Option.getD none ("b@example.org") ++ crlf)
      ++ ("Subject: " ++ Option.getD none ("S") ++ crlf)
      ++ ("Auto-Submitted: auto-generated; type=acme" ++ crlf)
      ++ ("Message-ID: " ++ messageId ++ crlf)
      ++ multipartSigned testBE.boundary p7
          (innerBody ("hello") ("a@example.com") ("b@example.org") ("S")) ∧
      (∃ pre post, innerBody ("hello") ("a@example.com") ("b@example.org") ("S") =
        pre ++ ("Message-ID: " ++ messageId ++ crlf) ++ post) :=
  output_outer_headers_order testBE ("hello") ("a@example.com") ("b@example.org") ("S")
    ("pk") ("cert") none none none wOut rfl

/-- C6: `signmail` fails with `keyLoadError` exactly when the key
material cannot be loaded or does not match, fails with `signingError`
when the underlying sign call fails, and otherwise returns the byte
stream successfully. -/
theorem error_taxonomy {Key : Type} (be : SMIMEBackend Key)
    (text sender recipient subject privkey pubkey : String)
    (eF eT eS : Option String) :
    (∀ e, be.loadKey privkey pubkey = Except.error e →
      signmail be text sender recipient subject privkey pubkey eF eT eS =
        Except.error (SMIMEError.keyLoadError e)) ∧
    (∀ key e, be.loadKey privkey pubkey = Except.ok key →
      be.sign key (innerBody text sender recipient subject) = Except.error e →
      signmail be text sender recipient subject privkey pubkey eF eT eS =
        Except.error (SMIMEError.signingError e)) ∧
    (∀ key p7, be.loadKey privkey pubkey = Except.ok key →
      be.sign key (innerBody text sender recipient subject) = Except.ok p7 →
      signmail be text sender recipient subject privkey pubkey eF eT eS =
        Except.ok (outerHeaders sender recipient subject eF eT eS
          ++ multipartSigned be.boundary p7 (innerBody text sender recipient subject))) := by
  refine ⟨?_, ?_, ?_⟩
  · intro e he
    simp [signmail, signmailRun, Except.map, he]
  · intro key e hk hs
    simp [signmail, signmailRun, Except.map, hk, hs]
  · intro key p7 hk hs
    simp [signmail, signmailRun, Except.map, hk, hs]

/-- Witness for the C6 theorem: a failing key load, a failing sign call
and a succeeding run, each on a concrete backend. -/
theorem error_taxonomy_witness :
    signmail badKeyBE ("t") ("s@e.org") ("r@e.org") ("j") ("pk") ("cert") none none none =
      Except.error (SMIMEError.keyLoadError ("badkey")) ∧
    signmail badSignBE ("t") ("s@e.org") ("r@e.org") ("j") ("pk") ("cert") none none none =
      Except.error (SMIMEError.signingError ("badsign")) ∧
    signmail testBE ("t") ("s@e.org") ("r@e.org") ("j") ("pk") ("cert") none none none =
      Except.ok (outerHeaders ("s@e.org") ("r@e.org") ("j") none none none
        ++ multipartSigned testBE.boundary ("U0lHTkFUVVJFQkFTRTY0")
            (innerBody ("t") ("s@e.org") ("r@e.org") ("j"))) :=
  ⟨(error_taxonomy badKeyBE ("t") ("s@e.org") ("r@e.org") ("j") ("pk") ("cert")
      none none none).1 ("badkey") rfl,
   (error_taxonomy badSignBE ("t") ("s@e.org") ("r@e.org") ("j") ("pk") ("cert")
      none none none).2.1 Unit.unit ("badsign") rfl rfl,
   (error_taxonomy testBE ("t") ("s@e.org") ("r@e.org") ("j") ("pk") ("cert")
      none none none).2.2 Unit.unit ("U0lHTkFUVVJFQkFTRTY0") rfl rfl⟩

/-- C8: two invocations on identical inputs and identical key material
whose cryptographic layer produces the same signature bytes and boundary
give identical output byte streams; all remaining bytes are determined by
the inputs. -/
theorem signmail_deterministic {Key Key' : Type}
    (be : SMIMEBackend Key) (be' : SMIMEBackend Key')
    (text sender recipient subject privkey pubkey : String)
    (eF eT eS : Option String) (key : Key) (key' : Key') (p7 : String)
    (hb : be.boundary = be'.boundary)
    (hk : be.loadKey privkey pubkey = Except.ok key)
    (hk' : be'.loadKey privkey pubkey = Except.ok key')
    (hs : be.sign key (innerBody text sender recipient subject) = Except.ok p7)
    (hs' : be'.sign key' (innerBody text sender recipient subject) = Except.ok p7) :
    signmail be text sender recipient subject privkey pubkey eF eT eS =
      signmail be' text sender recipient subject privkey pubkey eF eT eS := by
  simp [signmail, signmailRun, hk, hk', hs, hs', hb]

/-- Witness for the C8 theorem: two distinct backends agreeing on key
load, signature bytes and boundary produce the same output. -/
theorem signmail_deterministic_witness :
    signmail testBE ("m") ("a@e.org") ("b@e.org") ("S") ("pk") ("cert") none none none =
      signmail testBE2 ("m") ("a@e.org") ("b@e.org") ("S") ("pk") ("cert") none none none :=
  signmail_deterministic testBE testBE2 ("m") ("a@e.org") ("b@e.org") ("S") ("pk")
    ("cert") none none none Unit.unit true ("U0lHTkFUVVJFQkFTRTY0") rfl rfl rfl rfl rfl

/-- C9: `signmail` never inspects its string inputs: for every text,
sender, recipient and subject — with no constraint whatsoever, including
the empty string and strings holding CR or LF — it succeeds whenever the
cryptographic layer does, interpolating the strings into the inner body
as they are; the constraint stated on `bodyText` is not enforced. -/
theorem no_input_validation {Key : Type} (be : SMIMEBackend Key)
    (key : Key) (p7 privkey pubkey : String)
    (hk : be.loadKey privkey pubkey = Except.ok key)
    (hs : ∀ m, be.sign key m = Except.ok p7) :
    ∀ text sender recipient subject : String, ∀ eF eT eS : Option String,
      signmail be text sender recipient subject privkey pubkey eF eT eS =
        Except.ok (outerHeaders sender recipient subject eF eT eS
          ++ multipartSigned be.boundary p7 (innerBody text sender recipient subject)) := by
  intro text sender recipient subject eF eT eS
  simp [signmail, signmailRun, Except.map, hk, hs]

/-- Witness for the C9 theorem: an empty body text together with CR/LF
sequences inside the sender and subject strings are accepted verbatim. -/
theorem no_input_validation_witness :
    signmail testBE ("") ("evil\r\nX-Inject: a") ("b@e.org") ("S\r\nT") ("pk") ("cert")
        none none none =
      Except.ok (outerHeaders ("evil\r\nX-Inject: a") ("b@e.org") ("S\r\nT") none none none
        ++ multipartSigned testBE.boundary ("U0lHTkFUVVJFQkFTRTY0")
            (innerBody ("") ("evil\r\nX-Inject: a") ("b@e.org") ("S\r\nT"))) :=
  no_input_validation testBE Unit.unit ("U0lHTkFUVVJFQkFTRTY0") ("pk") ("cert") rfl
    (fun _ => rfl) ("") ("evil\r\nX-Inject: a") ("b@e.org") ("S\r\nT") none none none

/-- C10: the byte sequence passed to the PKCS#7 sign call and the content
part handed to the multipart/signed serializer are the identical inner
body value. -/
theorem signed_equals_embedded {Key : Type} (be : SMIMEBackend Key)
    (text sender recipient subject privkey pubkey : String)
    (eF eT eS : Option String) (r : SignmailResult)
    (h : signmailRun be text sender recipient subject privkey pubkey eF eT eS =
      Except.ok r) :
    r.signedInput = innerBody text sender recipient subject ∧
    ∃ p7, r.output = outerHeaders sender recipient subject eF eT eS
      ++ multipartSigned be.boundary p7 r.signedInput := by
  obtain ⟨key, p7, hk, hs, hr⟩ :=
    signmailRun_ok_shape be text sender recipient subject privkey pubkey eF eT eS r h
  subst hr
  exact ⟨rfl, p7, rfl⟩

/-- Witness for the C10 theorem on a concrete run of the test backend. -/
theorem signed_equals_embedded_witness :
    wRes.signedInput = innerBody ("hello") ("a@example.com") ("b@example.org") ("S") ∧
    ∃ p7, wRes.output =
      outerHeaders ("a@example.com") ("b@example.org") ("S") none none none
        ++ multipartSigned testBE.boundary p7 wRes.signedInput :=
  signed_equals_embedded testBE ("hello") ("a@example.com") ("b@example.org") ("S")
    ("pk") ("cert") none none none wRes rfl

/-- C4: in each of the three protected-mail tamper scenarios exactly one
outer envelope header differs from its inner counterpart — From, To and
Subject respectively — while the other two outer headers equal the inner
values; all three scenarios sign with the valid signer key material, and
what is signed is exactly the inner body built from the untampered inner
values. -/
theorem tamper_scenarios_one_field :
    (outerFromOf scProtFrom ≠ scProtFrom.sender ∧
      outerToOf scProtFrom = scProtFrom.recipient ∧
      outerSubjectOf scProtFrom = scProtFrom.subject) ∧
    (outerFromOf scProtTo = scProtTo.sender ∧
      outerToOf scProtTo ≠ scProtTo.recipient ∧
      outerSubjectOf scProtTo = scProtTo.subject) ∧
    (outerFromOf scProtSubject = scProtSubject.sender ∧
      outerToOf scProtSubject = scProtSubject.recipient ∧
      outerSubjectOf scProtSubject ≠ scProtSubject.subject) ∧
    (∀ sc : Scenario, sc ∈ [scProtFrom, scProtTo, scProtSubject] →
      sc.privkey = validPrivkey ∧ sc.pubkey = validPubkey ∧
      ∀ (Key : Type) (be : SMIMEBackend Key) (r : SignmailResult),
        signmailRunSc be sc = Except.ok r →
        r.signedInput = innerBody sc.text sc.sender sc.recipient sc.subject) := by
  refine ⟨⟨by decide, rfl, rfl⟩, ⟨rfl, by decide, rfl⟩, ⟨rfl, rfl, by decide⟩, ?_⟩
  intro sc hsc
  have hkeys : sc.privkey = validPrivkey ∧ sc.pubkey = validPubkey := by
    fin_cases hsc <;> exact ⟨rfl, rfl⟩
  exact ⟨hkeys.1, hkeys.2, fun K be r h => signmailRunSc_signedInput be sc r h⟩

/-- Witness for the C4 theorem: the tampered-From scenario run on the
test backend signs the inner body of the untampered inner values. -/
theorem tamper_scenarios_one_field_witness :
    wResPF.signedInput =
      innerBody scProtFrom.text scProtFrom.sender scProtFrom.recipient
        scProtFrom.subject :=
  (tamper_scenarios_one_field.2.2.2 scProtFrom (by simp)).2.2 Unit testBE wResPF rfl

/-- C5 counterexample: the generator does not operate on six scenarios
and does not write six files — there are seven call sites. -/
theorem six_scenarios_false :
    ¬ (scenarios.length = 6) ∧ ¬ ((runAll testBE).length = 6) := by
  constructor
  · decide
  · decide

/-- C5 amended: a complete run operates on a fixed, hardcoded list of
exactly seven scenarios and writes exactly seven .eml byte streams to
seven fixed, pairwise distinct repository-relative paths, each successful
output being one multipart/signed MIME message. -/
theorem seven_scenarios_fixed_paths {Key : Type} (be : SMIMEBackend Key) :
    scenarios.length = 7 ∧
    (runAll be).length = 7 ∧
    (runAll be).map Prod.fst =
      ["src/test/resources/email/valid-mail.eml",
       "src/test/resources/email/invalid-cert-mismatch.eml",
       "src/test/resources/email/invalid-nosan.eml",
       "src/test/resources/email/invalid-signed-mail.eml",
       "src/test/resources/email/invalid-protected-mail-from.eml",
       "src/test/resources/email/invalid-protected-mail-to.eml",
       "src/test/resources/email/invalid-protected-mail-subject.eml"] ∧
    ((runAll be).map Prod.fst).Nodup ∧
    (∀ p res, (p, res) ∈ runAll be → ∀ out, res = Except.ok out →
      ∃ sc p7, sc ∈ scenarios ∧ p = sc.path ∧
        out = outerHeaders sc.sender sc.recipient sc.subject
            sc.envelopeFrom sc.envelopeTo sc.envelopeSubject
          ++ multipartSigned be.boundary p7
              (innerBody sc.text sc.sender sc.recipient sc.subject)) := by
  have hmap : (runAll be).map Prod.fst = scenarios.map Scenario.path := rfl
  refine ⟨rfl, rfl, ?_, ?_, ?_⟩
  · rw [hmap]; rfl
  · rw [hmap]; decide
  · intro p res hmem out hout
    simp only [runAll, List.mem_map] at hmem
    rcases hmem with ⟨sc, hscmem, hpair⟩
    injection hpair with hp hres
    rw [← hres] at hout
    unfold signmailSc at hout
    obtain ⟨p7, hform⟩ :=
      signmail_ok_shape be sc.text sc.sender sc.recipient sc.subject sc.privkey
        sc.pubkey sc.envelopeFrom sc.envelopeTo sc.envelopeSubject out hout
    exact ⟨sc, p7, hscmem, hp.symm, hform⟩

/-- Witness for the C5 amended theorem: the valid-mail entry of a run on
the test backend has the multipart/signed shape. -/
theorem seven_scenarios_fixed_paths_witness :
    ∃ sc p7, sc ∈ scenarios ∧ scValidMail.path = sc.path ∧
      wOutValid = outerHeaders sc.sender sc.recipient sc.subject
          sc.envelopeFrom sc.envelopeTo sc.envelopeSubject
        ++ multipartSigned testBE.boundary p7
            (innerBody sc.text sc.sender sc.recipient sc.subject) :=
  (seven_scenarios_fixed_paths testBE).2.2.2.2 scValidMail.path
    (signmailSc testBE scValidMail)
    (List.mem_map.mpr ⟨scValidMail, by simp [scenarios], rfl⟩) wOutValid rfl

/-- C7: parsing a generated byte stream as a multipart/signed message and
extracting the embedded body part returns byte-for-byte the inner body —
header lines and payload — that was fed to the signer, provided the MIME
delimiters occur nowhere inside the header block, the signature part or
the inner body. -/
theorem generated_roundtrip {Key : Type} (be : SMIMEBackend Key)
    (text sender recipient subject privkey pubkey : String)
    (eF eT eS : Option String) (out : String) (key : Key) (p7 : String)
    (hk : be.loadKey privkey pubkey = Except.ok key)
    (hs : be.sign key (innerBody text sender recipient subject) = Except.ok p7)
    (hout : signmail be text sender recipient subject privkey pubkey eF eT eS =
      Except.ok out)
    (h1 : NoEarly (mimeDelim be.boundary).data
      (outerHeaders sender recipient subject eF eT eS ++ smimeTopHeaders be.boundary).data
      ((sigPartHeader ++ p7)
        ++ (mimeDelim be.boundary
          ++ (innerBody text sender recipient subject ++ mimeCloseDelim be.boundary))).data)
    (h2 : NoEarly (mimeDelim be.boundary).data (sigPartHeader ++ p7).data
      (innerBody text sender recipient subject ++ mimeCloseDelim be.boundary).data)
    (h3 : NoEarly (mimeCloseDelim be.boundary).data
      (innerBody text sender recipient subject).data []) :
    extractSecondPart be.boundary out =
      some (innerBody text sender recipient subject) := by
  have hrun := signmailRun_ok_of be text sender recipient subject privkey pubkey
    eF eT eS key p7 hk hs
  have hO : out = outerHeaders sender recipient subject eF eT eS
      ++ multipartSigned be.boundary p7 (innerBody text sender recipient subject) := by
    unfold signmail at hout
    rw [hrun] at hout
    simpa [Except.map] using hout.symm
  have e1 : out.data =
      (outerHeaders sender recipient subject eF eT eS ++ smimeTopHeaders be.boundary).data
      ++ ((mimeDelim be.boundary).data
        ++ ((sigPartHeader ++ p7)
          ++ (mimeDelim be.boundary
            ++ (innerBody text sender recipient subject ++ mimeCloseDelim be.boundary))).data) := by
    rw [hO]
    simp [multipartSigned, String.data_append, List.append_assoc]
  have e2 : ((sigPartHeader ++ p7)
      ++ (mimeDelim be.boundary
        ++ (innerBody text sender recipient subject ++ mimeCloseDelim be.boundary))).data =
      (sigPartHeader ++ p7).data
      ++ ((mimeDelim be.boundary).data
        ++ (innerBody text sender recipient subject ++ mimeCloseDelim be.boundary).data) := by
    simp [String.data_append, List.append_assoc]
  have e3 : (innerBody text sender recipient subject ++ mimeCloseDelim be.boundary).data =
      (innerBody text sender recipient subject).data ++ (mimeCloseDelim be.boundary).data := by
    simp [String.data_append]
  have s1 := splitOnce_append (mimeDelim be.boundary).data
    (outerHeaders sender recipient subject eF eT eS ++ smimeTopHeaders be.boundary).data
    ((sigPartHeader ++ p7)
      ++ (mimeDelim be.boundary
        ++ (innerBody text sender recipient subject ++ mimeCloseDelim be.boundary))).data h1
  have s2p := splitOnce_append (mimeDelim be.boundary).data (sigPartHeader ++ p7).data
    (innerBody text sender recipient subject ++ mimeCloseDelim be.boundary).data h2
  have s3p := splitOnce_append_end (mimeCloseDelim be.boundary).data
    (innerBody text sender recipient subject).data h3
  unfold extractSecondPart
  simp only [e1, s1]
  simp only [e2, s2p]
  simp only [e3, s3p]

/-- Witness for the C7 theorem: extracting the second part of a concrete
generated stream returns exactly the inner body that was signed. -/
theorem generated_roundtrip_witness :
    extractSecondPart testBE.boundary wOut =
      some (innerBody ("hello") ("a@example.com") ("b@example.org") ("S")) :=
  generated_roundtrip testBE ("hello") ("a@example.com") ("b@example.org") ("S")
    ("pk") ("cert") none none none wOut Unit.unit ("U0lHTkFUVVJFQkFTRTY0")
    rfl rfl rfl (by decide) (by decide) (by decide)
